import Mathlib

/-!
Verification of `chat_ui.py` (Ollama Local AI Chat).

The Python source is shallowly embedded: pure data flow becomes Lean
functions, network effects become explicit outcome parameters
(`TagsOutcome` for the GET probe, `PostOutcome` for the streaming POST),
and Python exceptions become `Except PyError`.  JSON values read from a
transcript file are modelled by the inductive `JVal`, and the pythonic
operations the source performs on them (`in`, `[]`, `len`, `.get`,
iteration) are modelled by partial-by-exception functions returning
`Except PyError`.
-/

/-- A chat message, as the `{"role": ..., "content": ...}` dicts the
Gradio chatbot passes around in `chat_ui.py`. -/
structure Message where
  role : String
  content : String
deriving DecidableEq, Repr

/-- A JSON value as Python's `json` module materialises it: `None`,
`bool`, number, `str`, `list`, `dict`.  Numbers are modelled as
rationals (Python floats that appear in this program, such as `0.7`,
are decimal literals). -/
inductive JVal where
  | null
  | bool (b : Bool)
  | num (q : Rat)
  | str (s : String)
  | arr (xs : List JVal)
  | obj (kvs : List (String × JVal))

/-- The Python exceptions the embedded code can raise. -/
inductive PyError where
  | typeError
  | keyError
  | attributeError
deriving DecidableEq, Repr

/-- First-match association-list lookup, as a Python `dict` keyed by
strings (`json.load` never produces duplicate keys). -/
def lookupKey (kvs : List (String × JVal)) (k : String) : Option JVal :=
  match kvs with
  | [] => none
  | (k2, v) :: rest => if k2 = k then some v else lookupKey rest k

/-- Substring test, for Python's `key in someString`. -/
def strContainsSub (s sub : String) : Bool :=
  (s.splitOn sub).length != 1

/-- Python's `key in data` for a string key: key membership on a dict,
element membership on a list (a string key only `==`-matches a string
element), substring test on a string, `TypeError` otherwise. -/
def pyContains : JVal → String → Except PyError Bool
  | .obj kvs, k => .ok (lookupKey kvs k).isSome
  | .arr xs, k =>
    .ok (xs.any (fun x => match x with | .str s => s == k | _ => false))
  | .str s, k => .ok (strContainsSub s k)
  | _, _ => .error .typeError

/-- Python's `data[key]` for a string key: dict lookup (raising
`KeyError` when absent), `TypeError` on anything else. -/
def pyGetItem : JVal → String → Except PyError JVal
  | .obj kvs, k =>
    match lookupKey kvs k with
    | some v => .ok v
    | none => .error .keyError
  | _, _ => .error .typeError

/-- Python's `len(v)`: defined on strings, lists and dicts, `TypeError`
otherwise. -/
def pyLen : JVal → Except PyError Nat
  | .str s => .ok s.length
  | .arr xs => .ok xs.length
  | .obj kvs => .ok kvs.length
  | _ => .error .typeError

/-- Python's `v.get(key, default)`: only dicts have `.get`, every other
value raises `AttributeError`. -/
def pyGet : JVal → String → JVal → Except PyError JVal
  | .obj kvs, k, dflt => .ok ((lookupKey kvs k).getD dflt)
  | _, _, _ => .error .attributeError

/-- Python iteration `for x in v`: lists yield elements, strings yield
one-character strings, dicts yield keys, `TypeError` otherwise. -/
def pyIter : JVal → Except PyError (List JVal)
  | .arr xs => .ok xs
  | .str s => .ok (s.data.map (fun c => .str (String.mk [c])))
  | .obj kvs => .ok (kvs.map (fun kv => .str kv.1))
  | _ => .error .typeError

/-- Serialisation of a `Message` into the JSON object written by
`export_chat_history`. -/
def messageToJVal (m : Message) : JVal :=
  .obj [("role", .str m.role), ("content", .str m.content)]

/-- Decoder for a single serialised message. -/
def jvalToMessage : JVal → Option Message
  | .obj [("role", .str r), ("content", .str c)] => some ⟨r, c⟩
  | _ => none

/-- Decoder for a serialised conversation: a JSON array of message
objects, or nothing. -/
def jvalToMessages : JVal → Option (List Message)
  | .arr xs => xs.mapM jvalToMessage
  | _ => none

theorem jvalToMessages_encode (C : List Message) :
    jvalToMessages (.arr (C.map messageToJVal)) = some C := by
  unfold jvalToMessages
  induction C with
  | nil => rfl
  | cons m rest ih =>
    have hm : jvalToMessage (messageToJVal m) = some m := rfl
    simp only [List.map_cons, List.mapM_cons, hm]
    simp only [Option.bind_eq_bind, Option.some_bind] at ih ⊢
    rw [ih]
    rfl

/-- Default model name (`CURRENT_MODEL` in `chat_ui.py`). -/
def CURRENT_MODEL : String := "codellama:7b"

/-- Body of a received tags response: `response.json()` either raises
`JSONDecodeError` or produces a JSON value. -/
inductive BodyOutcome where
  | malformed
  | json (v : JVal)

/-- Outcome of the `GET http://localhost:11434/api/tags` probe:
either the request raises (`RequestException`/`Timeout`), or a response
arrives with a status code and a body. -/
inductive TagsOutcome where
  | unreachable
  | response (status : Nat) (body : BodyOutcome)

/-- A parsed stream chunk: per the Ollama generate API each line is a
JSON object optionally carrying a `response` text fragment and/or a
`done` boolean. -/
structure Chunk where
  response : Option String
  done : Option Bool
deriving DecidableEq, Repr

/-- One line of the streaming POST response, after `iter_lines`:
an empty (falsy) line, a line that is not valid JSON
(`json.JSONDecodeError`), or a parsed chunk object. -/
inductive StreamLine where
  | empty
  | invalid
  | chunk (c : Chunk)

/-- Outcome of the streaming `POST /api/generate`: the request raises
`Timeout` or `ConnectionError`, or a response arrives with a status
code and a sequence of lines. -/
inductive PostOutcome where
  | timeout
  | connError
  | httpResponse (status : Nat) (lines : List StreamLine)

/-- Embeds `check_ollama_status` (`chat_ui.py` lines 31-37): true
exactly when the probe returned and its status code is 200; any raised
request error yields `false`. -/
def check_ollama_status : TagsOutcome → Bool
  | .unreachable => false
  | .response st _ => st == 200

/-- Embeds `get_available_models` (`chat_ui.py` lines 39-48).  The
listed `except` clause catches only request errors and
`json.JSONDecodeError`; exceptions raised while traversing the decoded
body (`data.get`, iteration, `model[...]`) propagate to the caller,
which the `Except` result records.  The returned names are whatever
values sit under `name` (the source does not coerce them). -/
def get_available_models (tags : TagsOutcome) : Except PyError (List JVal) :=
  match tags with
  | .unreachable => .ok [.str CURRENT_MODEL]
  | .response st body =>
    if st = 200 then
      match body with
      | .malformed => .ok [.str CURRENT_MODEL]
      | .json v =>
        match pyGet v "models" (.arr []) with
        | .error e => .error e
        | .ok models =>
          match pyIter models with
          | .error e => .error e
          | .ok xs =>
            match xs.mapM (fun m => pyGetItem m "name") with
            | .error e => .error e
            | .ok names => .ok names
    else .ok [.str CURRENT_MODEL]

/-- One iteration of the prompt-assembly loop of `generate_response`
(`chat_ui.py` lines 96-100): append a `User:` line for a user entry, an
`Assistant:` line for an assistant entry with non-empty (truthy)
content, and nothing otherwise. -/
def promptStep (acc : String) (msg : Message) : String :=
  if msg.role == "user" then acc ++ "User: " ++ msg.content ++ "\n"
  else if msg.role == "assistant" && msg.content != "" then
    acc ++ "Assistant: " ++ msg.content ++ "\n"
  else acc

/-- Embeds the prompt assembly of `generate_response` (`chat_ui.py`
lines 95-102): fold the history with `promptStep`, then append the new
message and a trailing `Assistant:`. -/
def build_prompt (history : List Message) (message : String) : String :=
  (history.foldl promptStep "") ++ "User: " ++ message ++ "\nAssistant:"

/-- Embeds the line loop of `generate_response` (`chat_ui.py` lines
125-136), carrying the accumulator `full_response`: a falsy or
undecodable line is skipped; a chunk with a `response` key appends the
fragment and yields the accumulated text; otherwise a truthy `done`
breaks the loop. -/
def processLines : List StreamLine → String → List String
  | [], _ => []
  | .empty :: rest, acc => processLines rest acc
  | .invalid :: rest, acc => processLines rest acc
  | .chunk c :: rest, acc =>
    match c.response with
    | some r => (acc ++ r) :: processLines rest (acc ++ r)
    | none => if c.done.getD false then [] else processLines rest acc

/-- The error text yielded when `check_ollama_status` is false. -/
def ollamaDownError : String :=
  "❌ Error: Ollama is not running or the model is not available."

/-- The error text yielded on a request `Timeout`. -/
def timeoutError : String :=
  "❌ Timeout: Model is taking too long to respond."

/-- The error text yielded on a `ConnectionError`. -/
def connectionError : String :=
  "❌ Error connecting to Ollama: Please ensure Ollama is running."

/-- Embeds `generate_response` (`chat_ui.py` lines 87-141) as the pair
of (the list of values the generator yields, the number of POST
requests it issues).  The health probe outcome and the POST outcome are
explicit parameters; the assembled prompt is sent in the request body
and does not influence the yielded values. -/
def generate_response (message : String) (history : List Message)
    (tags : TagsOutcome) (post : PostOutcome) : List String × Nat :=
  if !(check_ollama_status tags) then ([ollamaDownError], 0)
  else
    let _prompt := build_prompt history message
    match post with
    | .timeout => ([timeoutError], 1)
    | .connError => ([connectionError], 1)
    | .httpResponse st lines =>
      if st = 200 then (processLines lines "", 1)
      else (["❌ Error: HTTP " ++ toString st], 1)

/-- Input handed to `import_chat_history`: no file selected, a file
whose opening or JSON-decoding raises, or a successfully parsed JSON
value. -/
inductive FileInput where
  | noFile
  | unreadable
  | parsed (data : JVal)

/-- The distinct status strings `import_chat_history` can return:
`"No file selected"`, `"❌ Invalid file format"`,
`"✅ Imported <n> messages"`, and `"❌ Import failed: <exception>"`. -/
inductive ImportStatus where
  | noFile
  | invalidFormat
  | imported (n : Nat)
  | importFailed
deriving DecidableEq, Repr

/-- The body of the `try` block of `import_chat_history` (`chat_ui.py`
lines 175-186) on parsed data, with Python's evaluation order: the
short-circuiting `all(key in data ...)` membership checks, then the
three indexings, then `len(conversation)` and the two `params.get`
calls; any raised exception propagates as `.error`. -/
def importBody (data : JVal) :
    Except PyError (ImportStatus × JVal × JVal × JVal × JVal) :=
  match pyContains data "conversation" with
  | .error e => .error e
  | .ok false => .ok (.invalidFormat, .arr [], .str "", .num 0.7, .num 2048)
  | .ok true =>
  match pyContains data "model" with
  | .error e => .error e
  | .ok false => .ok (.invalidFormat, .arr [], .str "", .num 0.7, .num 2048)
  | .ok true =>
  match pyContains data "parameters" with
  | .error e => .error e
  | .ok false => .ok (.invalidFormat, .arr [], .str "", .num 0.7, .num 2048)
  | .ok true =>
  match pyGetItem data "conversation" with
  | .error e => .error e
  | .ok conversation =>
  match pyGetItem data "model" with
  | .error e => .error e
  | .ok model =>
  match pyGetItem data "parameters" with
  | .error e => .error e
  | .ok params =>
  match pyLen conversation with
  | .error e => .error e
  | .ok n =>
  match pyGet params "temperature" (.num 0.7) with
  | .error e => .error e
  | .ok t =>
  match pyGet params "max_tokens" (.num 2048) with
  | .error e => .error e
  | .ok mt => .ok (.imported n, conversation, model, t, mt)

/-- Embeds `import_chat_history` (`chat_ui.py` lines 169-188).  The
function is total: every exception raised inside the `try` block is
caught and turned into the `importFailed` result with an empty
conversation and default parameters. -/
def import_chat_history : FileInput → ImportStatus × JVal × JVal × JVal × JVal
  | .noFile => (.noFile, .arr [], .str "", .num 0.7, .num 2048)
  | .unreadable => (.importFailed, .arr [], .str "", .num 0.7, .num 2048)
  | .parsed data =>
    match importBody data with
    | .ok r => r
    | .error _ => (.importFailed, .arr [], .str "", .num 0.7, .num 2048)

/-- The two status outcomes of `export_chat_history` in this pure
embedding (the I/O failure branch concerns the filesystem, which is
not modelled). -/
inductive ExportStatus where
  | nothingToExport
  | exported
deriving DecidableEq, Repr

/-- The JSON object `export_chat_history` writes (`chat_ui.py` lines
149-157): timestamp, model, a parameters sub-object with temperature
and max_tokens, and the serialised conversation. -/
def export_data (history : List Message) (model : String)
    (temperature maxTokens : Rat) (timestamp : String) : JVal :=
  .obj
    [("timestamp", .str timestamp),
     ("model", .str model),
     ("parameters",
      .obj [("temperature", .num temperature), ("max_tokens", .num maxTokens)]),
     ("conversation", .arr (history.map messageToJVal))]

/-- Embeds `export_chat_history` (`chat_ui.py` lines 143-167): on an
empty (falsy) history, report and write nothing; otherwise write the
export object. -/
def export_chat_history (history : List Message) (model : String)
    (temperature maxTokens : Rat) (timestamp : String) :
    ExportStatus × Option JVal :=
  if history.isEmpty then (.nothingToExport, none)
  else (.exported, some (export_data history model temperature maxTokens timestamp))

/-- Python's `str.strip()`: remove leading and trailing whitespace. -/
def pyStrip (s : String) : String :=
  String.mk
    (((s.data.dropWhile Char.isWhitespace).reverse.dropWhile
      Char.isWhitespace).reverse)

/-- The message returned by `compare_models` on a blank prompt. -/
def emptyPromptMessage : String := "Please enter a prompt to compare models"

/-- The message returned by `compare_models` when a placeholder
sentinel is selected. -/
def sentinelMessage : String :=
  "❌ Please download at least 2 models to use the comparison feature"

/-- The message returned by `compare_models` when both dropdowns hold
the same model. -/
def duplicateModelMessage : String :=
  "❌ Please select two different models for comparison"

/-- Whether a dropdown value is one of the two placeholder sentinels
inserted when fewer than two models are downloaded. -/
def isSentinel (m : String) : Bool :=
  m == "No models available" || m == "Download another model"

/-- Embeds `compare_models` (`chat_ui.py` lines 218-258) as the pair of
(the returned `(comparisonText, statusText)`, the number of
`generate_response` invocations performed).  The three precondition
checks run in source order: blank prompt, sentinel selection, duplicate
selection; only past all three are the two generations run, each
retaining its final yielded value (empty when the stream yields
nothing). -/
def compare_models (prompt model1 model2 : String) (tags : TagsOutcome)
    (post1 post2 : PostOutcome) (ts : String) : (String × String) × Nat :=
  if pyStrip prompt == "" then ((emptyPromptMessage, ""), 0)
  else if isSentinel model1 || isSentinel model2 then ((sentinelMessage, ""), 0)
  else if model1 == model2 then ((duplicateModelMessage, ""), 0)
  else
    let response1 := ((generate_response prompt [] tags post1).1.getLast?).getD ""
    let response2 := ((generate_response prompt [] tags post2).1.getLast?).getD ""
    let comparison :=
      "\n**Model 1 (" ++ model1 ++ "):**\n" ++ response1 ++
      "\n\n---\n**Model 2 (" ++ model2 ++ "):**\n" ++ response2 ++
      "\n\n---\n**Comparison:**\n- Model 1 length: " ++
      toString response1.length ++ " characters\n- Model 2 length: " ++
      toString response2.length ++ " characters\n- Response time: " ++ ts ++ "\n"
    ((comparison, "Comparison completed at " ++ ts), 2)

/-- Concatenation of a list of strings (spec-side helper). -/
def concatStrings : List String → String
  | [] => ""
  | s :: rest => s ++ concatStrings rest

/-- Spec-side rendering of one history entry as a prompt line. -/
def renderLine (m : Message) : String :=
  (if m.role == "user" then "User: " else "Assistant: ") ++ m.content ++ "\n"

/-- Spec-side predicate: the entries the prompt keeps — every user
entry, and assistant entries with non-empty content. -/
def keepMessage (m : Message) : Bool :=
  m.role == "user" || (m.role == "assistant" && m.content != "")

/-- Spec-side formulation of `buildPrompt` taken from the spec's words:
the kept history entries rendered in order, followed by
`User: <newMessage>\nAssistant:`. -/
def specPrompt (history : List Message) (message : String) : String :=
  concatStrings ((history.filter keepMessage).map renderLine) ++
    "User: " ++ message ++ "\nAssistant:"

/-- Concatenation of every `response` fragment carried by a list of
stream lines (spec-side helper: the full text-so-far). -/
def respConcat : List StreamLine → String
  | [] => ""
  | .chunk c :: rest => (c.response.getD "") ++ respConcat rest
  | _ :: rest => respConcat rest

/-- Spec-side decidable form of the TranscriptFile invariant, taken
from the spec's words: the value is an object whose `conversation`
field is present and is a sequence of Message objects, and whose
`model` and `parameters` fields are present. -/
def specTranscriptInvariant (v : JVal) : Bool :=
  match v with
  | .obj kvs =>
    (match lookupKey kvs "conversation" with
     | some c => (jvalToMessages c).isSome
     | none => false) &&
    (lookupKey kvs "model").isSome && (lookupKey kvs "parameters").isSome
  | _ => false

/-- A healthy probe outcome: status 200 (the body is irrelevant to
`check_ollama_status`). -/
def okTags : TagsOutcome := .response 200 .malformed

theorem processLines_mem (lines : List StreamLine) :
    ∀ (acc s : String), s ∈ processLines lines acc →
      ∃ k, k ≤ lines.length ∧ s = acc ++ respConcat (lines.take k) := by
  induction lines with
  | nil =>
    intro acc s h
    simp [processLines] at h
  | cons l rest ih =>
    intro acc s h
    match l with
    | .empty =>
      simp only [processLines] at h
      obtain ⟨k, hk, hs⟩ := ih acc s h
      exact ⟨k + 1, Nat.succ_le_succ hk, by simpa [respConcat] using hs⟩
    | .invalid =>
      simp only [processLines] at h
      obtain ⟨k, hk, hs⟩ := ih acc s h
      exact ⟨k + 1, Nat.succ_le_succ hk, by simpa [respConcat] using hs⟩
    | .chunk c =>
      cases hr : c.response with
      | some r =>
        simp only [processLines, hr, List.mem_cons] at h
        rcases h with heq | hmem
        · refine ⟨1, by simp, ?_⟩
          simp [respConcat, hr, heq, String.append_assoc]
        · obtain ⟨k, hk, hs⟩ := ih (acc ++ r) s hmem
          refine ⟨k + 1, Nat.succ_le_succ hk, ?_⟩
          simp only [List.take_succ_cons, respConcat, hr, Option.getD_some]
          rw [hs, String.append_assoc]
      | none =>
        simp only [processLines, hr] at h
        by_cases hd : c.done.getD false
        · simp [hd] at h
        · simp only [hd, if_false, Bool.false_eq_true] at h
          obtain ⟨k, hk, hs⟩ := ih acc s h
          refine ⟨k + 1, Nat.succ_le_succ hk, ?_⟩
          simpa [respConcat, hr] using hs

/-- Claim C1: every value the streaming generator yields is the
cumulative concatenation of the `response` fragments of a prefix of
the stream (the full text-so-far, never a bare delta); on the
synthetic sequence `response:"He"`, `response:"llo"`, `done:true` the
consumer observes exactly `"He"` then `"Hello"` and the sequence
terminates. -/
theorem generate_response_yields_cumulative :
    (∀ (msg : String) (hist : List Message) (tags : TagsOutcome)
       (lines : List StreamLine) (s : String),
       check_ollama_status tags = true →
       s ∈ (generate_response msg hist tags (.httpResponse 200 lines)).1 →
       ∃ k, k ≤ lines.length ∧ s = respConcat (lines.take k)) ∧
    (generate_response "m" [] okTags
      (.httpResponse 200
        [.chunk ⟨some "He", none⟩, .chunk ⟨some "llo", none⟩,
         .chunk ⟨none, some true⟩])).1 = ["He", "Hello"] := by
  constructor
  · intro msg hist tags lines s htags hmem
    simp only [generate_response, htags, Bool.not_true, Bool.false_eq_true,
      if_false, reduceIte] at hmem
    exact processLines_mem lines "" s hmem
  · rfl

/-- Witness for C1: at the synthetic stream, the yielded value
`"Hello"` is the fragment concatenation of a prefix of the stream. -/
theorem generate_response_yields_cumulative_witness :
    ∃ k, k ≤ 3 ∧ "Hello" = respConcat
      ([StreamLine.chunk ⟨some "He", none⟩, .chunk ⟨some "llo", none⟩,
        .chunk ⟨none, some true⟩].take k) :=
  generate_response_yields_cumulative.1 "m" [] okTags
    [.chunk ⟨some "He", none⟩, .chunk ⟨some "llo", none⟩,
     .chunk ⟨none, some true⟩] "Hello" rfl (by decide)

/-- Claim C2 counterexample: a line carrying `done: true` together
with a `response` field does not terminate the sequence — with the
line sequence `response:"a",done:true` then `response:"b"`, the
generator yields `"a"` and then `"ab"`, an item produced from the line
after the done-carrying one; with the done-carrying line alone it
yields only `"a"`. -/
theorem generate_response_done_with_response_continues :
    (generate_response "p" [] okTags
      (.httpResponse 200
        [.chunk ⟨some "a", some true⟩, .chunk ⟨some "b", none⟩])).1
      = ["a", "ab"] ∧
    (generate_response "p" [] okTags
      (.httpResponse 200 [.chunk ⟨some "a", some true⟩])).1 = ["a"] :=
  ⟨rfl, rfl⟩

theorem processLines_terminal (c : Chunk) (hresp : c.response = none)
    (hdone : c.done.getD false = true) (rest : List StreamLine) :
    ∀ (pre : List StreamLine) (acc : String),
      processLines (pre ++ .chunk c :: rest) acc =
        processLines (pre ++ [.chunk c]) acc := by
  intro pre
  induction pre with
  | nil =>
    intro acc
    simp [processLines, hresp, hdone]
  | cons l pre ih =>
    intro acc
    match l with
    | .empty => simpa [processLines] using ih acc
    | .invalid => simpa [processLines] using ih acc
    | .chunk c2 =>
      cases hr : c2.response with
      | some r => simp [processLines, hr, ih (acc ++ r)]
      | none =>
        by_cases hd : c2.done.getD false
        · simp [processLines, hr, hd]
        · simp [processLines, hr, hd, ih acc]

/-- Claim C2 (amended): whenever a stream line carries a truthy `done`
marker and no `response` field, the generator terminates at that line
— the yielded values do not depend on any later line.  (A line
carrying both `response` and `done: true` instead takes the `response`
branch, yields, and does not terminate.) -/
theorem generate_response_done_terminates (msg : String)
    (hist : List Message) (tags : TagsOutcome)
    (pre rest : List StreamLine) (c : Chunk)
    (hresp : c.response = none) (hdone : c.done.getD false = true) :
    generate_response msg hist tags
        (.httpResponse 200 (pre ++ .chunk c :: rest)) =
      generate_response msg hist tags
        (.httpResponse 200 (pre ++ [.chunk c])) := by
  unfold generate_response
  cases check_ollama_status tags
  · rfl
  · simp only [Bool.not_true, Bool.false_eq_true, if_false, reduceIte]
    rw [processLines_terminal c hresp hdone rest pre ""]

/-- Witness for C2 (amended): with the done line first and a response
line after it, both streams yield nothing. -/
theorem generate_response_done_terminates_witness :
    generate_response "p" [] okTags
        (.httpResponse 200
          ([] ++ .chunk ⟨none, some true⟩ :: [.chunk ⟨some "x", none⟩])) =
      generate_response "p" [] okTags
        (.httpResponse 200 ([] ++ [.chunk ⟨none, some true⟩])) :=
  generate_response_done_terminates "p" [] okTags []
    [.chunk ⟨some "x", none⟩] ⟨none, some true⟩ rfl rfl

theorem foldl_promptStep (history : List Message) :
    ∀ acc : String,
      List.foldl promptStep acc history =
        acc ++ concatStrings ((history.filter keepMessage).map renderLine) := by
  induction history with
  | nil => intro acc; simp [concatStrings]
  | cons m rest ih =>
    intro acc
    by_cases hu : m.role == "user"
    · have hk : keepMessage m = true := by simp [keepMessage, hu]
      simp only [List.foldl_cons, List.filter_cons, hk, if_pos,
        List.map_cons, concatStrings, ih, promptStep, hu, if_true]
      simp [renderLine, hu, String.append_assoc]
    · by_cases ha : m.role == "assistant" && m.content != ""
      · have hk : keepMessage m = true := by simp [keepMessage, ha]
        have hasst : (m.role == "assistant") = true := by
          rcases Bool.and_eq_true_iff.mp ha with ⟨h1, _⟩
          exact h1
        simp only [List.foldl_cons, List.filter_cons, hk, if_pos,
          List.map_cons, concatStrings, ih, promptStep, hu, ha, if_true]
        simp only [Bool.false_eq_true, if_false]
        have hrl : renderLine m = "Assistant: " ++ m.content ++ "\n" := by
          simp [renderLine, hu]
        rw [hrl]
        simp [String.append_assoc]
      · have hk : keepMessage m = false := by
          simp only [keepMessage]
          rw [Bool.or_eq_false_iff]
          exact ⟨Bool.of_not_eq_true hu, Bool.of_not_eq_true ha⟩
        simp only [List.foldl_cons, List.filter_cons, hk, promptStep, hu, ha,
          Bool.false_eq_true, if_false, ih]

/-- Claim C3: the prompt assembled by `generate_response` is the
history rendered in order as `User:` / `Assistant:` lines — keeping
every user entry, skipping assistant entries with empty content —
followed by `User: <newMessage>\nAssistant:`. -/
theorem build_prompt_renders_history (history : List Message)
    (message : String) :
    build_prompt history message = specPrompt history message := by
  unfold build_prompt specPrompt
  rw [foldl_promptStep]
  rfl

/-- Claim C6: when the probe raises (server unreachable),
`check_ollama_status` returns false — it never raises, being total —
and whenever `check_ollama_status` is false, `generate_response`
yields exactly the single terminal error item and issues no POST. -/
theorem check_health_gates_generation (tags : TagsOutcome) (msg : String)
    (hist : List Message) (post : PostOutcome) :
    (tags = .unreachable → check_ollama_status tags = false) ∧
    (check_ollama_status tags = false →
      generate_response msg hist tags post = ([ollamaDownError], 0)) := by
  constructor
  · intro h
    subst h
    rfl
  · intro h
    simp [generate_response, h]

/-- Witness for C6 at an unreachable server. -/
theorem check_health_gates_generation_witness :
    check_ollama_status .unreachable = false ∧
    generate_response "hi" [] .unreachable .timeout = ([ollamaDownError], 0) :=
  ⟨(check_health_gates_generation .unreachable "hi" [] .timeout).1 rfl,
   (check_health_gates_generation .unreachable "hi" [] .timeout).2 rfl⟩

/-- Claim C7 counterexample: with an empty prompt and both models equal
(`"x"`), `compare_models` returns the empty-prompt message — not the
duplicate-selection message — because the blank-prompt precondition is
checked first. -/
theorem compare_models_empty_prompt_first :
    compare_models "" "x" "x" .unreachable .timeout .timeout "t" =
      ((emptyPromptMessage, ""), 0) ∧
    emptyPromptMessage ≠ duplicateModelMessage :=
  ⟨rfl, by decide⟩

/-- Claim C7 (amended): for every prompt that is non-blank after
stripping and models that are not placeholder sentinels, invoking
`compare_models` with equal models returns the duplicate-selection
message and performs zero `generate_response` invocations (hence no
network calls). -/
theorem compare_models_duplicate_no_network (prompt m1 m2 : String)
    (tags : TagsOutcome) (post1 post2 : PostOutcome) (ts : String)
    (hp : (pyStrip prompt == "") = false)
    (h1 : isSentinel m1 = false) (h2 : isSentinel m2 = false)
    (heq : m1 = m2) :
    compare_models prompt m1 m2 tags post1 post2 ts =
      ((duplicateModelMessage, ""), 0) := by
  simp [compare_models, hp, h1, h2, heq]

/-- Witness for C7 (amended) at a concrete non-blank prompt and equal
models. -/
theorem compare_models_duplicate_no_network_witness :
    compare_models "hi" "a" "a" okTags .timeout .timeout "t" =
      ((duplicateModelMessage, ""), 0) :=
  compare_models_duplicate_no_network "hi" "a" "a" okTags .timeout .timeout
    "t" (by decide) (by decide) (by decide) rfl

/-- Claim C4: exporting a non-empty conversation produces a file, and
importing that file yields the conversation back (the returned value
is the serialisation of `C`, which decodes to `C`), the same model,
and the same temperature and max_tokens. -/
theorem export_import_roundtrip (C : List Message) (model ts : String)
    (t n : Rat) (hC : C ≠ []) :
    export_chat_history C model t n ts =
      (.exported, some (export_data C model t n ts)) ∧
    import_chat_history (.parsed (export_data C model t n ts)) =
      (.imported C.length, .arr (C.map messageToJVal), .str model,
       .num t, .num n) ∧
    jvalToMessages (.arr (C.map messageToJVal)) = some C := by
  refine ⟨?_, ?_, jvalToMessages_encode C⟩
  · cases C with
    | nil => exact absurd rfl hC
    | cons a l => rfl
  · have h : importBody (export_data C model t n ts) =
        .ok (.imported (C.map messageToJVal).length,
             .arr (C.map messageToJVal), .str model, .num t, .num n) := rfl
    simp only [import_chat_history, h, List.length_map]

/-- Witness for C4 at a one-message conversation. -/
theorem export_import_roundtrip_witness :
    export_chat_history [⟨"user", "hi"⟩] "m" 0.7 2048 "T" =
      (.exported, some (export_data [⟨"user", "hi"⟩] "m" 0.7 2048 "T")) ∧
    import_chat_history (.parsed (export_data [⟨"user", "hi"⟩] "m" 0.7 2048 "T")) =
      (.imported 1, .arr [messageToJVal ⟨"user", "hi"⟩], .str "m",
       .num 0.7, .num 2048) ∧
    jvalToMessages (.arr [messageToJVal ⟨"user", "hi"⟩]) =
      some [⟨"user", "hi"⟩] :=
  export_import_roundtrip [⟨"user", "hi"⟩] "m" "T" 0.7 2048 (by decide)

/-- Claim C5 counterexample: a file whose `conversation` field is
present but is the string `"hi"` — not a sequence of Message, so the
TranscriptFile invariant fails — is not rejected: import returns a
success status counting the string's characters and hands the string
back as the conversation. -/
theorem import_accepts_non_message_conversation :
    specTranscriptInvariant
      (.obj [("conversation", .str "hi"), ("model", .str "m"),
             ("parameters", .obj [])]) = false ∧
    import_chat_history (.parsed
      (.obj [("conversation", .str "hi"), ("model", .str "m"),
             ("parameters", .obj [])])) =
      (.imported 2, .str "hi", .str "m", .num 0.7, .num 2048) :=
  ⟨rfl, rfl⟩

/-- Claim C5 (amended): import — which is total, so it never raises —
returns the invalid-format status with an empty conversation and
default parameters whenever any of the three top-level keys
`conversation`, `model`, `parameters` is absent from the file object;
key presence is the only structural validation performed. -/
theorem import_rejects_missing_key (kvs : List (String × JVal))
    (h : lookupKey kvs "conversation" = none ∨
         lookupKey kvs "model" = none ∨
         lookupKey kvs "parameters" = none) :
    import_chat_history (.parsed (.obj kvs)) =
      (.invalidFormat, .arr [], .str "", .num 0.7, .num 2048) := by
  unfold import_chat_history importBody
  rcases h with h | h | h
  · simp [pyContains, h]
  · cases hc : lookupKey kvs "conversation" with
    | none => simp [pyContains, hc]
    | some c => simp [pyContains, hc, h]
  · cases hc : lookupKey kvs "conversation" with
    | none => simp [pyContains, hc]
    | some c =>
      cases hm : lookupKey kvs "model" with
      | none => simp [pyContains, hc, hm]
      | some m => simp [pyContains, hc, hm, h]

/-- Witness for C5 (amended) at the empty object. -/
theorem import_rejects_missing_key_witness :
    import_chat_history (.parsed (.obj [])) =
      (.invalidFormat, .arr [], .str "", .num 0.7, .num 2048) :=
  import_rejects_missing_key [] (Or.inl rfl)

/-- Claim C8 counterexample: a file whose three top-level keys are all
present but whose `parameters` value is the number 5 does not import
successfully — `params.get` raises `AttributeError`, caught into the
import-failed status with defaults. -/
theorem import_fails_on_non_object_parameters :
    import_chat_history (.parsed
      (.obj [("conversation", .arr []), ("model", .str "m"),
             ("parameters", .num 5)])) =
      (.importFailed, .arr [], .str "", .num 0.7, .num 2048) := rfl

/-- Claim C8 (amended): for every file object whose `conversation`,
`model` and `parameters` keys are present, whose conversation value
has a length, and whose parameters value is an object, import succeeds
and lifts `temperature` and `max_tokens` verbatim from the parameters
sub-object, defaulting them to 0.7 and 2048 respectively when absent
there. -/
theorem import_defaults_inner_parameters (kvs pkvs : List (String × JVal))
    (conv model : JVal) (n : Nat)
    (hconv : lookupKey kvs "conversation" = some conv)
    (hmodel : lookupKey kvs "model" = some model)
    (hparams : lookupKey kvs "parameters" = some (.obj pkvs))
    (hlen : pyLen conv = .ok n) :
    import_chat_history (.parsed (.obj kvs)) =
      (.imported n, conv, model,
       (lookupKey pkvs "temperature").getD (.num 0.7),
       (lookupKey pkvs "max_tokens").getD (.num 2048)) := by
  unfold import_chat_history importBody
  simp [pyContains, pyGetItem, pyGet, hconv, hmodel, hparams, hlen]

/-- Witness for C8 (amended): `temperature` present (lifted verbatim),
`max_tokens` absent (defaulted to 2048). -/
theorem import_defaults_inner_parameters_witness :
    import_chat_history (.parsed
      (.obj [("conversation", .arr []), ("model", .str "m"),
             ("parameters", .obj [("temperature", .num 1.5)])])) =
      (.imported 0, .arr [], .str "m", .num 1.5, .num 2048) :=
  import_defaults_inner_parameters
    [("conversation", .arr []), ("model", .str "m"),
     ("parameters", .obj [("temperature", .num 1.5)])]
    [("temperature", .num 1.5)] (.arr []) (.str "m") 0 rfl rfl rfl rfl

/-- Claim C9 counterexample: a 200 tags response whose body is the
JSON number 42 — a malformed (structurally unexpected) response —
makes `get_available_models` raise `AttributeError` to its caller
instead of returning the fallback singleton. -/
theorem get_available_models_raises_on_number_body :
    get_available_models (.response 200 (.json (.num 42))) =
      .error .attributeError := rfl

/-- Claim C9 (amended): `get_available_models` returns the fallback
singleton containing the configured default model — without raising —
whenever the server is unreachable, the response status is not 200, or
a 200 body fails JSON decoding; a 200 body that decodes to structurally
unexpected JSON can instead raise to the caller. -/
theorem get_available_models_fallback (tags : TagsOutcome)
    (h : tags = .unreachable ∨ tags = .response 200 .malformed ∨
         ∃ st body, tags = .response st body ∧ st ≠ 200) :
    get_available_models tags = .ok [.str CURRENT_MODEL] := by
  rcases h with h | h | ⟨st, body, h, hst⟩
  · subst h
    rfl
  · subst h
    rfl
  · subst h
    simp [get_available_models, hst]

/-- Witness for C9 (amended) at an unreachable server. -/
theorem get_available_models_fallback_witness :
    get_available_models .unreachable = .ok [.str CURRENT_MODEL] :=
  get_available_models_fallback .unreachable (Or.inl rfl)

/-- Claim C10: a 200 tags response whose JSON body is an object with an
empty `models` list, or with no `models` key at all, makes
`get_available_models` return the empty list, not the fallback
singleton. -/
theorem get_available_models_empty_models (kvs : List (String × JVal))
    (h : lookupKey kvs "models" = none ∨
         lookupKey kvs "models" = some (.arr [])) :
    get_available_models (.response 200 (.json (.obj kvs))) = .ok [] := by
  unfold get_available_models
  rcases h with h | h
  · simp only [pyGet, pyIter, h]
    rfl
  · simp only [pyGet, pyIter, h]
    rfl

/-- Witness for C10 at a body with no `models` key. -/
theorem get_available_models_empty_models_witness :
    get_available_models (.response 200 (.json (.obj []))) = .ok [] :=
  get_available_models_empty_models [] (Or.inl rfl)
